import Mathlib

/-!
# Verification of the quiz/review-pool server against its specification

Shallow embedding of the server code (`server/routes.ts`,
`server/csvStorage.ts`) of the quiz application, together with theorems
settling the specification claims about the review selector, the session
composer, the answer grader, the session stats tracker and the CSV
persistence layer.

JavaScript strings are modelled as Lean `String`s; the few JS string
primitives the code uses (`trim`, `toLowerCase`, `length`, `includes`,
`parseInt`) are given explicit executable models operating on the
character list of the string.
-/

namespace QuizApp

set_option maxRecDepth 100000

/-! ## JS string primitives -/

/-- Model of JS `String.prototype.trim`: drop whitespace on both ends. -/
def jsTrim (s : String) : String :=
  String.mk (((s.data.dropWhile Char.isWhitespace).reverse.dropWhile
    Char.isWhitespace).reverse)

/-- Model of JS `String.prototype.toLowerCase` (ASCII case folding). -/
def jsToLower (s : String) : String :=
  String.mk (s.data.map Char.toLower)

/-- Model of JS `String.prototype.length` (code-unit count; the sources
only compare ASCII text lengths, where this coincides with `data.length`). -/
def jsLength (s : String) : Nat :=
  s.data.length

/-- `needle` occurs as a contiguous segment of the list. -/
def containsSeg (needle : List Char) : List Char → Bool
  | [] => needle.isEmpty
  | h :: t => needle.isPrefixOf (h :: t) || containsSeg needle t

/-- Model of JS `a.includes(b)`: `b` occurs as a contiguous substring of
`a`. -/
def jsIncludes (a b : String) : Bool :=
  containsSeg b.data a.data

/-- Digit-prefix value used by `parseIntJS`: the value of the maximal
leading run of decimal digits, or `none` when there is no digit. -/
def digitsPrefixVal (cs : List Char) : Option Nat :=
  let ds := cs.takeWhile Char.isDigit
  if ds.isEmpty then none
  else some (ds.foldl (fun a c => a * 10 + (c.toNat - 48)) 0)

/-- Model of JS `parseInt(s, 10)`: skip leading whitespace, read an
optional sign and then the maximal run of decimal digits; `none` models
the `NaN` result. -/
def parseIntJS (s : String) : Option Int :=
  match s.data.dropWhile Char.isWhitespace with
  | '-' :: rest => (digitsPrefixVal rest).map (fun n => -(n : Int))
  | '+' :: rest => (digitsPrefixVal rest).map (fun n => (n : Int))
  | t => (digitsPrefixVal t).map (fun n => (n : Int))

/-! ## CSV layer (`server/csvStorage.ts`, `parseCSVLine` / `escapeCSV`) -/

/-- Character loop of `parseCSVLine` (csvStorage.ts lines 19-37):
a `"` toggles the `inQuotes` flag and is dropped, a `,` outside quotes
ends the current field, every other character is appended to the current
field. -/
def parseCSVLineGo : List Char → Bool → String → List String → List String
  | [], _, current, acc => acc ++ [current]
  | c :: rest, inQuotes, current, acc =>
    if c = '"' then
      parseCSVLineGo rest (!inQuotes) current acc
    else if c = ',' && !inQuotes then
      parseCSVLineGo rest inQuotes "" (acc ++ [current])
    else
      parseCSVLineGo rest inQuotes (current.push c) acc

/-- `parseCSVLine` (csvStorage.ts lines 19-37). -/
def parseCSVLine (line : String) : List String :=
  parseCSVLineGo line.data false "" []

/-- Quote-doubling loop of `escapeCSV`: `str.replace(/"/g, '""')`. -/
def doubleQuotes (s : String) : String :=
  s.data.foldl (fun acc c => if c = '"' then acc ++ "\"\"" else acc.push c) ""

/-- `escapeCSV` (csvStorage.ts lines 39-46), on the string already
produced by JS `String(value)`: wrap in quotes and double the inner
quotes when the value contains a comma, a quote or a newline. -/
def escapeCSV (s : String) : String :=
  if s.data.contains ',' || s.data.contains '"' || s.data.contains '\n' then
    "\"" ++ doubleQuotes s ++ "\""
  else s

/-- The CSV line written for a quiz session by `createQuizSession` /
`updateQuizSession` (csvStorage.ts lines 133-142 and 196-205): the eight
escaped fields joined with commas.  `questionsJson` and `statsJson` are
the `JSON.stringify` images of the `questions` and `stats` fields. -/
def sessionCSVLine (id summaryText questionsJson : String)
    (currentQuestionIndex : Nat) (statsJson : String) (completed : Bool)
    (createdAt updatedAt : String) : String :=
  String.intercalate ","
    [escapeCSV id, escapeCSV summaryText, escapeCSV questionsJson,
     escapeCSV (toString currentQuestionIndex), escapeCSV statsJson,
     escapeCSV (if completed then "true" else "false"),
     escapeCSV createdAt, escapeCSV updatedAt]

/-- The exact `JSON.stringify` image of the initial stats object
`{ asked: 0, correctFirstTry: 0, retries: 0, questionAttempts: {} }`
written by `createQuizSession` (csvStorage.ts lines 119 and 138). -/
def initialStatsJson : String :=
  "\x7b\"asked\":0,\"correctFirstTry\":0,\"retries\":0,\"questionAttempts\":\x7b\x7d\x7d"

/-- What `parseCSVLine` actually recovers from the escaped
`initialStatsJson` field: all double quotes are gone, leaving a string
that is no longer valid JSON. -/
def initialStatsJsonStripped : String :=
  "\x7basked:0,correctFirstTry:0,retries:0,questionAttempts:\x7b\x7d\x7d"

/-! ## Data model (`shared/schema.ts`) -/

/-- A multiple-choice option (`questionOptionSchema` / the `options`
entries of a session question): `{ id, text, correct }`. -/
structure QOption where
  id : String
  text : String
  correct : Bool
deriving DecidableEq, Repr

/-- A session question snapshot (the legacy `Question` interface in
`shared/schema.ts`).  Optional JS fields are `Option`s; `options` is a
plain list because every consumer in the code reads it through
`currentQuestion.options || []`. -/
structure Question where
  id : String
  type : String
  text : String
  options : List QOption
  correctAnswer : Option String
  explanation : String
  sourceFile : Option String
  storedQuestionId : Option Nat
  isReviewQuestion : Option Bool
deriving DecidableEq, Repr

/-- Session statistics (`QuizStats` in `shared/schema.ts`).  The
`questionAttempts` map `questionId → true` is modelled as the list of
question ids that are flagged, membership standing for a `true` entry. -/
structure QuizStats where
  asked : Nat
  correctFirstTry : Nat
  retries : Nat
  questionAttempts : List String
deriving DecidableEq, Repr

/-! ## Session stats tracker (answer handler, routes.ts lines 383-398) -/

/-- The stats update performed by the answer endpoint: on the first
attempt at `questionId` increment `asked` (and `correctFirstTry` when
correct) and flag the question in `questionAttempts`; on a later
incorrect attempt increment `retries`; a later correct attempt changes
nothing. -/
def recordAttempt (stats : QuizStats) (questionId : String)
    (isCorrect : Bool) : QuizStats :=
  if questionId ∉ stats.questionAttempts then
    { stats with
      asked := stats.asked + 1,
      correctFirstTry :=
        stats.correctFirstTry + (if isCorrect then 1 else 0),
      questionAttempts := questionId :: stats.questionAttempts }
  else if !isCorrect then
    { stats with retries := stats.retries + 1 }
  else
    stats

/-- The fields of the `QuestionUsage` row appended for a stored-question
answer (routes.ts lines 402-412 together with
`CSVStorage.trackQuestionUsage`, csvStorage.ts lines 374-388): the
handler passes the raw `isCorrect` verdict as the `wasCorrect` argument
and `attempts = stats.questionAttempts?.[questionId] ? 2 : 1` computed
from the stats object it has just mutated; `trackQuestionUsage` writes
these verbatim into the `wasCorrectFirstTry` and `attemptsCount`
columns. -/
structure UsageRow where
  wasCorrectFirstTry : Bool
  attemptsCount : Nat
deriving DecidableEq, Repr

/-- The stats update followed by the usage-row computation of a single
answer submission (routes.ts lines 383-412): returns the updated stats
and the usage row that is appended when the question is backed by a
stored question. -/
def answerStep (stats : QuizStats) (questionId : String)
    (isCorrect : Bool) : QuizStats × UsageRow :=
  let stats' := recordAttempt stats questionId isCorrect
  (stats',
   { wasCorrectFirstTry := isCorrect,
     attemptsCount :=
       if questionId ∈ stats'.questionAttempts then 2 else 1 })

/-! ## Answer grader (routes.ts lines 341-381) -/

/-- The heuristic open-answer fallback used when `evaluateOpenAnswer`
throws (routes.ts lines 361-370): lower-case and trim both texts, then
correct iff the user answer contains the model answer, or vice versa, or
the user answer has at least 20 characters. -/
def openFallbackCorrect (answer0 correctAnswerRaw : String) : Bool :=
  let userAnswer := jsTrim (jsToLower answer0)
  let correctAnswer := jsTrim (jsToLower correctAnswerRaw)
  jsIncludes userAnswer correctAnswer ||
  jsIncludes correctAnswer userAnswer ||
  jsLength userAnswer ≥ 20

/-- Multiple-choice grading (routes.ts lines 371-381): the submitted id
array must have the same length as the list of correct option ids and
the two must mutually contain each other. -/
def gradeMultipleChoice (submitted : List String)
    (options : List QOption) : Bool :=
  let correctIds := (options.filter (fun o => o.correct)).map (fun o => o.id)
  submitted.length == correctIds.length &&
  submitted.all (fun i => correctIds.contains i) &&
  correctIds.all (fun i => submitted.contains i)

/-- Verdict of one answer submission (routes.ts lines 341-381),
returning `(isCorrect, isSkipped)`.  `aiVerdict` models the
`evaluateOpenAnswer` collaborator call on `answer[0] || ''`: `some v`
when it returns the verdict `v`, `none` when it throws and the heuristic
fallback runs.  For open questions the code reads
`currentQuestion.correctAnswer` directly; per the data-model invariant
an open question always carries a `correctAnswer`, and `getD ""` stands
for that always-present value. -/
def gradeAnswer (aiVerdict : Option Bool) (q : Question)
    (answer : List String) : Bool × Bool :=
  if answer.length = 0 then
    (false, true)
  else if q.type = "open" then
    match aiVerdict with
    | some v => (v, false)
    | none =>
      (openFallbackCorrect (answer.headD "") (q.correctAnswer.getD ""), false)
  else
    (gradeMultipleChoice answer q.options, false)

/-! ## Session record store (`CSVStorage` sessions, record level)

The spec treats the CSV parsing utility as a black-box key-value record
store (spec §1); the session operations are modelled here at the record
level exactly as `csvStorage.ts` manipulates the deserialized records,
while the byte-level `escapeCSV`/`parseCSVLine` round-trip is examined
separately above. -/

/-- A quiz session record (`QuizSession`), timestamps elided. -/
structure SessionRec where
  id : String
  summaryText : String
  questions : List Question
  currentQuestionIndex : Nat
  stats : QuizStats
  completed : Bool
deriving DecidableEq, Repr

/-- A `Partial<QuizSession>` update object: `none` fields are absent
from the JS object and therefore untouched by the spread merge. -/
structure SessionUpdate where
  summaryText : Option String
  questions : Option (List Question)
  currentQuestionIndex : Option Nat
  stats : Option QuizStats
  completed : Option Bool
deriving DecidableEq, Repr

/-- The spread merge `{ ...session, ...updates }` of
`CSVStorage.updateQuizSession` (csvStorage.ts lines 180-184): a field
present in `updates` replaces the stored one, every other field is kept. -/
def applyUpdate (s : SessionRec) (u : SessionUpdate) : SessionRec :=
  { id := s.id,
    summaryText := u.summaryText.getD s.summaryText,
    questions := u.questions.getD s.questions,
    currentQuestionIndex := u.currentQuestionIndex.getD s.currentQuestionIndex,
    stats := u.stats.getD s.stats,
    completed := u.completed.getD s.completed }

/-- `CSVStorage.getQuizSession` at the record level: the first stored
record with the requested id (csvStorage.ts lines 148-172). -/
def getQuizSessionRec (store : List SessionRec) (id : String) :
    Option SessionRec :=
  store.find? (fun s => s.id == id)

/-- `CSVStorage.updateQuizSession` at the record level (csvStorage.ts
lines 174-213): read the latest stored record, merge the updates over
it, and rewrite every line carrying that id with the merged record;
`none` models the thrown `'Quiz session not found'`. -/
def updateQuizSessionRec (store : List SessionRec) (id : String)
    (u : SessionUpdate) : Option (SessionRec × List SessionRec) :=
  match getQuizSessionRec store id with
  | none => none
  | some s =>
    let s' := applyUpdate s u
    some (s', store.map (fun t => if t.id == id then s' else t))

/-- The update object passed by the background task of the upload
handler (routes.ts lines 273-276): only `summaryText` and `questions`. -/
def backgroundUpdate (summaryText : String) (questions : List Question) :
    SessionUpdate :=
  { summaryText := some summaryText,
    questions := some questions,
    currentQuestionIndex := none,
    stats := none,
    completed := none }

/-! ## Review selector

`routes.ts` calls `storage.getReviewQuestions(reviewQuestionsTarget)` —
a single-argument selector — and `storage.getReviewPoolStats()` on the
`./storage` module, which is not among the provided source files (the
storage variants that are present, `CSVStorage.getReviewQuestions` and
`DatabaseStorage.getReviewQuestions`, have the older two-argument
signature and no `getReviewPoolStats`).  The selector is therefore
modelled from the spec. -/

/-- A `QuestionUsage` ledger event (spec §3): one row per answer
submission against a stored question. -/
structure UsageEvent where
  sessionId : String
  storedQuestionId : Nat
  wasCorrectFirstTry : Bool
  attemptsCount : Nat
deriving DecidableEq, Repr

/-- A stored question as the selector sees it (spec §3): the fields the
selection depends on.  `lastUsed` is `none` for a never-used question. -/
structure StoredQuestionRec where
  id : Nat
  useCount : Nat
  lastUsed : Option Nat
deriving DecidableEq, Repr

/-- Number of usage events recorded for the stored question (spec §4.1
step 1, `timesAsked`). -/
def timesAsked (ledger : List UsageEvent) (qid : Nat) : Nat :=
  (ledger.filter (fun e => e.storedQuestionId == qid)).length

/-- Cumulative correct-count of the stored question: the number of its
usage events with `wasCorrectFirstTry = true` (spec §4.1 step 1). -/
def correctCount (ledger : List UsageEvent) (qid : Nat) : Nat :=
  (ledger.filter
    (fun e => e.storedQuestionId == qid && e.wasCorrectFirstTry)).length

/-- Review-pool eligibility (spec §4.1 step 2 and §3 invariants): at
least one usage event and fewer than 2 cumulative correct answers. -/
def reviewEligible (ledger : List UsageEvent)
    (q : StoredQuestionRec) : Bool :=
  decide (1 ≤ timesAsked ledger q.id) &&
  decide (correctCount ledger q.id < 2)

/-- `lastUsed` order with never-used questions first (spec §4.1 step 3). -/
def lastUsedLe : Option Nat → Option Nat → Bool
  | none, _ => true
  | some _, none => false
  | some a, some b => a ≤ b

/-- Selection order (spec §4.1 step 3): ascending `useCount`, ties
broken by ascending `lastUsed`. -/
def selectorLe (a b : StoredQuestionRec) : Bool :=
  a.useCount < b.useCount ||
  (a.useCount == b.useCount && lastUsedLe a.lastUsed b.lastUsed)

/-- Insertion step of the selector's sort. -/
def insertBy (le : StoredQuestionRec → StoredQuestionRec → Bool)
    (x : StoredQuestionRec) :
    List StoredQuestionRec → List StoredQuestionRec
  | [] => [x]
  | y :: ys => if le x y then x :: y :: ys else y :: insertBy le x ys

/-- Insertion sort used by the selector model. -/
def sortBy (le : StoredQuestionRec → StoredQuestionRec → Bool)
    (l : List StoredQuestionRec) : List StoredQuestionRec :=
  l.foldr (insertBy le) []

/-- Modelled from the spec: the current Review Selector
(`storage.getReviewQuestions(limit)` of the missing `server/storage`
module), following §4.1 — aggregate the usage ledger per stored
question, keep the questions with at least one usage event and
`correctCount < 2`, order ascending by `useCount` with `lastUsed` as the
tie-break, and take the first `limit`.  The per-element snapshot
decoration of steps 4-5 (`timesAsked`, `lastCorrect`,
`correctRemaining`, the `isReviewQuestion`/`"Wiederholung"` tags) maps
each selected question one-to-one and does not change which questions
are selected, so the selection is modelled as the list of stored
questions themselves. -/
def selectReviewQuestions (bank : List StoredQuestionRec)
    (ledger : List UsageEvent) (limit : Nat) : List StoredQuestionRec :=
  (sortBy selectorLe (bank.filter (reviewEligible ledger))).take limit

/-! ## Upload-and-generate handler (routes.ts lines 46-294)

The handler is embedded as a pure function from the request and the
collaborator/storage responses to the HTTP outcome and the ordered trace
of the calls it makes.  The question generator, the review-selector
response and the shuffle's permutation are environment parameters. -/

/-- Result of one `generateQuestionsFromText` call. -/
structure GenResult where
  questions : List Question
  error : Option String
deriving DecidableEq, Repr

/-- The observable calls of the handler, in program order.  `genCall`
records the file index and the per-file question count of a
`generateQuestionsFromText` invocation; `respond` records the HTTP
status sent; `updateSession` records the size of the question list the
background task persists. -/
inductive UEvent where
  | storeDoc (idx : Nat)
  | genCall (idx : Nat) (questionsPerFile : Nat)
  | createSession
  | respond (status : Nat)
  | updateSession (finalCount : Nat)
deriving DecidableEq, Repr

/-- The caller-visible outcome of the handler. -/
inductive UOutcome where
  | badRequest (msg : String)
  | serverError (msg : String)
  | okSession (questionsCount newQuestionsCount reviewQuestionsCount
      filesProcessed : Nat)
deriving DecidableEq, Repr

/-- The request body, after multer: the uploaded files as
`(originalname, utf-8 content)` pairs and the three raw body fields.
For `questionTypesField`, `none` is an absent field, `some none` a
present field on which `JSON.parse` throws, and `some (some l)` a field
parsing to the list `l`. -/
structure UploadReq where
  files : List (String × String)
  questionTypesField : Option (Option (List String))
  totalQuestionsField : Option String
  difficultyField : Option String
deriving Repr

/-- Question-type parsing (routes.ts lines 57-72): default to all four
types when the field is absent, 400 when `JSON.parse` throws. -/
def parseQuestionTypes (req : UploadReq) :
    Except (UOutcome × List UEvent) (List String) :=
  match req.questionTypesField with
  | none => .ok ["definition", "case", "assignment", "open"]
  | some none =>
    .error (.badRequest "Ungültige Fragentypen-Auswahl", [.respond 400])
  | some (some l) => .ok l

/-- Total-question parsing (routes.ts lines 80-89): default 30 when the
field is absent or empty (falsy), otherwise `parseInt` and reject any
value outside `{25, 50, 75, 100}` (a `NaN` result is also rejected,
since `[...].includes(NaN)` is false). -/
def parseTotalQuestions (req : UploadReq) :
    Except (UOutcome × List UEvent) Int :=
  match req.totalQuestionsField with
  | none => .ok 30
  | some s =>
    if s = "" then .ok 30
    else
      match parseIntJS s with
      | none =>
        .error (.badRequest "Ungültige Gesamtanzahl Fragen!", [.respond 400])
      | some n =>
        if n = 25 ∨ n = 50 ∨ n = 75 ∨ n = 100 then .ok n
        else
          .error (.badRequest "Ungültige Gesamtanzahl Fragen!",
            [.respond 400])

/-- Difficulty parsing (routes.ts lines 93-100): keep the field when it
is one of the three levels, default `"basic"` otherwise; never rejects. -/
def parseDifficulty (req : UploadReq) : String :=
  match req.difficultyField with
  | some d => if d = "basic" ∨ d = "profi" ∨ d = "random" then d else "basic"
  | none => "basic"

/-- Model of JS `allQuestions.slice(0, n)` for a possibly negative `n`
(routes.ts lines 252-255): a negative end index counts from the end of
the array. -/
def jsSlice0 (l : List Question) (n : Int) : List Question :=
  if 0 ≤ n then l.take n.toNat else l.take (l.length - (-n).toNat)

/-- Accumulator of the per-file loop. -/
structure LoopState where
  allQuestions : List Question
  combinedSummary : String
  events : List UEvent
  nextStoredId : Nat
deriving Repr

/-- The per-file loop of the handler (routes.ts lines 107-189): reject
empty (after trim) and shorter-than-100-character files with 400, store
the document, invoke the generator, surface a generator error as 500,
and keep only the generated questions whose type was requested, tagging
each with the session id prefix, the source filename, the freshly
assigned stored-question id and `isReviewQuestion = false`. -/
def processFiles (types : List String) (gen : Nat → Nat → String → GenResult)
    (questionsPerFile : Nat) (difficulty : String) :
    List (String × String) → Nat → LoopState →
    Except (UOutcome × List UEvent) LoopState
  | [], _, st => .ok st
  | (name, content) :: rest, idx, st =>
    if jsTrim content = "" then
      .error (.badRequest ("Datei " ++ name ++ " ist leer"),
        st.events ++ [.respond 400])
    else if jsLength content < 100 then
      .error
        (.badRequest ("Datei " ++ name ++
          " ist zu kurz. Mindestens 100 Zeichen erforderlich."),
         st.events ++ [.respond 400])
    else
      let summary := st.combinedSummary ++ "--- Datei " ++
        toString (idx + 1) ++ ": " ++ name ++ " ---\n" ++ content ++ "\n\n"
      let events := st.events ++ [.storeDoc idx, .genCall idx questionsPerFile]
      let r := gen idx questionsPerFile difficulty
      match r.error with
      | some e =>
        .error (.serverError ("Fehler bei Datei " ++ name ++ ": " ++ e),
          events ++ [.respond 500])
      | none =>
        let kept := r.questions.filter (fun q => types.contains q.type)
        let fileQuestions := kept.enum.map (fun p =>
          { p.2 with
            id := "f" ++ toString (idx + 1) ++ "_" ++ p.2.id,
            sourceFile := some name,
            storedQuestionId := some (st.nextStoredId + p.1),
            isReviewQuestion := some false })
        processFiles types gen questionsPerFile difficulty rest (idx + 1)
          { allQuestions := st.allQuestions ++ fileQuestions,
            combinedSummary := summary,
            events := events,
            nextStoredId := st.nextStoredId + kept.length }

/-- The `/api/upload-and-generate` handler (routes.ts lines 46-294).
`reviews` is the review-selector response for
`reviewQuestionsTarget = floor(totalQuestions / 2)` and `shuffle` the
permutation drawn by the background Fisher-Yates pass.  Note the program
order the trace exposes: every generator call happens inside the per-file
loop, before the session is created and the 200 response is sent; the
`setImmediate` background task (routes.ts lines 246-286) only truncates,
shuffles and persists the already-generated questions. -/
def uploadHandler (req : UploadReq) (gen : Nat → Nat → String → GenResult)
    (reviews : List Question) (shuffle : List Question → List Question) :
    UOutcome × List UEvent :=
  if req.files.isEmpty then
    (.badRequest "Keine Dateien hochgeladen", [.respond 400])
  else
    match parseQuestionTypes req with
    | .error e => e
    | .ok types =>
      if types.isEmpty then
        (.badRequest "Mindestens ein Fragentyp muss ausgewählt werden",
         [.respond 400])
      else
        match parseTotalQuestions req with
        | .error e => e
        | .ok totalQ =>
          let total := totalQ.toNat
          let difficulty := parseDifficulty req
          let questionsPerFile :=
            (total + req.files.length - 1) / req.files.length
          match processFiles types gen questionsPerFile difficulty
              req.files 0 ⟨[], "", [], 1⟩ with
          | .error e => e
          | .ok st =>
            if st.allQuestions.isEmpty then
              (.serverError "Keine Fragen der ausgewählten Typen generiert",
               st.events ++ [.respond 500])
            else
              let allQs :=
                st.allQuestions.filter (fun q => types.contains q.type)
              if allQs.isEmpty then
                (.serverError "Keine Fragen der ausgewählten Typen generiert",
                 st.events ++ [.respond 500])
              else
                let markedReviews := reviews.map (fun q =>
                  { q with isReviewQuestion := some true })
                let newNeeded : Int :=
                  (total : Int) - (markedReviews.length : Int)
                let limited := jsSlice0 allQs newNeeded
                let finalQs := shuffle (markedReviews ++ limited)
                (.okSession markedReviews.length 0 markedReviews.length
                   req.files.length,
                 st.events ++
                   [.createSession, .respond 200,
                    .updateSession finalQs.length])

/-! ## Helper lemmas -/

theorem mem_insertBy {le : StoredQuestionRec → StoredQuestionRec → Bool}
    {x a : StoredQuestionRec} {l : List StoredQuestionRec} :
    a ∈ insertBy le x l ↔ a = x ∨ a ∈ l := by
  induction l with
  | nil => simp [insertBy]
  | cons y ys ih =>
    simp only [insertBy]
    split
    · simp [List.mem_cons]
    · simp only [List.mem_cons, ih]
      tauto

theorem mem_sortBy {le : StoredQuestionRec → StoredQuestionRec → Bool}
    {a : StoredQuestionRec} {l : List StoredQuestionRec} :
    a ∈ sortBy le l ↔ a ∈ l := by
  induction l with
  | nil => simp [sortBy]
  | cons y ys ih =>
    have : sortBy le (y :: ys) = insertBy le y (sortBy le ys) := rfl
    rw [this, mem_insertBy, List.mem_cons]
    rw [show sortBy le ys = List.foldr (insertBy le) [] ys from rfl] at ih
    rw [show sortBy le ys = List.foldr (insertBy le) [] ys from rfl]
    tauto

/-! ## Claim theorems -/

/-- C1: every question returned by the Review Selector has at least one
usage event and a cumulative correct-count below 2; hence a stored
question whose correct-count (derived from the `QuestionUsage` ledger)
is at least 2, as well as a stored question with no usage event at all,
is never included in `selectReviewQuestions`' result, for any limit. -/
theorem selectReviewQuestions_excludes_retired_and_unused
    (bank : List StoredQuestionRec) (ledger : List UsageEvent)
    (limit : Nat) (q : StoredQuestionRec)
    (h : 2 ≤ correctCount ledger q.id ∨ timesAsked ledger q.id = 0) :
    q ∉ selectReviewQuestions bank ledger limit := by
  intro hmem
  have h1 : q ∈ sortBy selectorLe (bank.filter (reviewEligible ledger)) :=
    List.take_subset _ _ hmem
  have h2 : q ∈ bank.filter (reviewEligible ledger) := mem_sortBy.mp h1
  have h3 := (List.mem_filter.mp h2).2
  simp only [reviewEligible, Bool.and_eq_true, decide_eq_true_eq] at h3
  rcases h with h | h
  · omega
  · omega

/-- Witness for C1: with a ledger holding two correct events for stored
question 1, that question is retired and the selector never returns it. -/
theorem selectReviewQuestions_excludes_retired_and_unused_witness :
    (2 ≤ correctCount [⟨"s", 1, true, 2⟩, ⟨"s", 1, true, 2⟩] 1 ∨
      timesAsked [⟨"s", 1, true, 2⟩, ⟨"s", 1, true, 2⟩] 1 = 0) ∧
    (⟨1, 0, none⟩ : StoredQuestionRec) ∉
      selectReviewQuestions [⟨1, 0, none⟩]
        [⟨"s", 1, true, 2⟩, ⟨"s", 1, true, 2⟩] 5 :=
  ⟨by decide,
   selectReviewQuestions_excludes_retired_and_unused
     [⟨1, 0, none⟩] [⟨"s", 1, true, 2⟩, ⟨"s", 1, true, 2⟩] 5
     ⟨1, 0, none⟩ (by decide)⟩

/-- C4 counterexample: on a fresh session, submitting the same question
twice — first an incorrect answer, then a correct one — leaves
`stats.retries` at 0; it does not increment it by 1 as claimed (the
first-attempt miss goes down the first-attempt branch, which never
touches `retries`, and the later correct retry changes nothing). -/
theorem recordAttempt_wrong_then_right_counterexample :
    ¬ ((recordAttempt
          (recordAttempt ⟨0, 0, 0, []⟩ "q1" false) "q1" true).retries =
        (⟨0, 0, 0, []⟩ : QuizStats).retries + 1) := by
  decide

/-- C4 (amended): submitting the same question twice, first an incorrect
then a correct answer, leaves `correctFirstTry` unchanged and increments
`retries` by exactly 1 when the question had already been attempted in
the session before the two submissions, and by 0 when the first of the
two submissions is the question's first attempt. -/
theorem recordAttempt_wrong_then_right (s : QuizStats) (q : String) :
    (recordAttempt (recordAttempt s q false) q true).correctFirstTry =
      s.correctFirstTry ∧
    (recordAttempt (recordAttempt s q false) q true).retries =
      s.retries + (if q ∈ s.questionAttempts then 1 else 0) := by
  by_cases h : q ∈ s.questionAttempts <;>
    simp [recordAttempt, h]

/-- C5 counterexample: a correct answer on a second attempt (the
question id is already flagged in `questionAttempts`) appends a usage
row with `wasCorrectFirstTry = true`, not `false` as the claim requires
for a non-first attempt: the handler passes the raw `isCorrect` verdict
to `trackQuestionUsage`. -/
theorem answerStep_wasCorrectFirstTry_counterexample :
    "q1" ∈ (⟨1, 0, 0, ["q1"]⟩ : QuizStats).questionAttempts ∧
    ((answerStep ⟨1, 0, 0, ["q1"]⟩ "q1" true).2).wasCorrectFirstTry =
      true := by
  decide

/-- C5 (amended): the `QuestionUsage` row appended by the answer
endpoint has `wasCorrectFirstTry` equal to the graded correctness of
that submission, regardless of whether it was the first attempt at the
question in the session. -/
theorem answerStep_wasCorrectFirstTry (stats : QuizStats)
    (questionId : String) (isCorrect : Bool) :
    ((answerStep stats questionId isCorrect).2).wasCorrectFirstTry =
      isCorrect := by
  simp [answerStep]

/-- C9: every `QuestionUsage` row appended by the answer endpoint has
`attemptsCount = 2`, including on the very first attempt at a question:
the `questionAttempts` flag for the question id is set in the stats map
before the attempts value is read back from that same map. -/
theorem answerStep_attempts_always_two (stats : QuizStats)
    (questionId : String) (isCorrect : Bool) :
    ((answerStep stats questionId isCorrect).2).attemptsCount = 2 := by
  have h : questionId ∈ (recordAttempt stats questionId
      isCorrect).questionAttempts := by
    by_cases h : questionId ∈ stats.questionAttempts <;>
      cases isCorrect <;> simp [recordAttempt, h]
  simp [answerStep, h]

/-- C6 counterexample: on a question whose single correct option is
`a`, the submission `["a", "a"]` selects exactly the correct option set
(its set of ids equals the correct-id set `{a}`), yet the grader marks
it incorrect: the length test compares the raw arrays, not the sets. -/
theorem gradeAnswer_set_equality_counterexample :
    (["a", "a"] : List String).toFinset =
      ((([⟨"a", "A", true⟩, ⟨"b", "B", false⟩, ⟨"c", "C", false⟩,
          ⟨"d", "D", false⟩] : List QOption).filter
            (fun o => o.correct)).map (fun o => o.id)).toFinset ∧
    (gradeAnswer none
      ⟨"q1", "definition", "t",
        [⟨"a", "A", true⟩, ⟨"b", "B", false⟩, ⟨"c", "C", false⟩,
         ⟨"d", "D", false⟩], none, "e", none, none, none⟩
      ["a", "a"]).1 = false := by
  decide

/-- C6 (amended): for a non-open question and a non-empty submitted
answer, provided the submitted id list and the correct-option id list
are each free of duplicates, the answer is graded correct iff the set of
submitted ids equals the set of option ids marked correct. -/
theorem gradeAnswer_iff_set_equality (aiVerdict : Option Bool)
    (q : Question) (answer : List String)
    (hopen : q.type ≠ "open") (hne : answer ≠ [])
    (hnd1 : answer.Nodup)
    (hnd2 : (((q.options.filter (fun o => o.correct)).map
      (fun o => o.id))).Nodup) :
    (gradeAnswer aiVerdict q answer).1 = true ↔
      answer.toFinset =
        ((q.options.filter (fun o => o.correct)).map
          (fun o => o.id)).toFinset := by
  have hlen : ¬ (answer.length = 0) := by
    simpa [List.length_eq_zero] using hne
  have hg : (gradeAnswer aiVerdict q answer).1 =
      gradeMultipleChoice answer q.options := by
    simp [gradeAnswer, hlen, hopen]
  rw [hg]
  have key : gradeMultipleChoice answer q.options = true ↔
      (answer.length =
        ((q.options.filter (fun o => o.correct)).map
          (fun o => o.id)).length ∧
       (∀ x ∈ answer,
         x ∈ (q.options.filter (fun o => o.correct)).map (fun o => o.id)) ∧
       (∀ x ∈ (q.options.filter (fun o => o.correct)).map (fun o => o.id),
         x ∈ answer)) := by
    simp only [gradeMultipleChoice, Bool.and_eq_true, beq_iff_eq,
      List.all_eq_true, List.elem_eq_mem, decide_eq_true_eq]
    tauto
  rw [key]
  constructor
  · rintro ⟨-, h1, h2⟩
    ext x
    simp only [List.mem_toFinset]
    exact ⟨h1 x, h2 x⟩
  · intro hset
    have hx : ∀ x, x ∈ answer ↔
        x ∈ (q.options.filter (fun o => o.correct)).map (fun o => o.id) := by
      intro x
      have := Finset.ext_iff.mp hset x
      simpa [List.mem_toFinset] using this
    refine ⟨?_, fun x hxm => (hx x).mp hxm, fun x hxm => (hx x).mpr hxm⟩
    calc answer.length = answer.toFinset.card :=
          (List.toFinset_card_of_nodup hnd1).symm
      _ = (((q.options.filter (fun o => o.correct)).map
            (fun o => o.id))).toFinset.card := by rw [hset]
      _ = (((q.options.filter (fun o => o.correct)).map
            (fun o => o.id))).length := List.toFinset_card_of_nodup hnd2

/-- Witness for C6 (amended): a multi-select question with correct
options `{a, b}` among `[a, b, c, d]`; the duplicate-free submission
`["a", "b"]` is graded correct and indeed selects exactly the correct
set. -/
theorem gradeAnswer_iff_set_equality_witness :
    ((⟨"q1", "case", "t",
        [⟨"a", "A", true⟩, ⟨"b", "B", true⟩, ⟨"c", "C", false⟩,
         ⟨"d", "D", false⟩], none, "e", none, none, none⟩ :
          Question).type ≠ "open" ∧
     (["a", "b"] : List String) ≠ [] ∧
     (["a", "b"] : List String).Nodup) ∧
    ((gradeAnswer none
        ⟨"q1", "case", "t",
          [⟨"a", "A", true⟩, ⟨"b", "B", true⟩, ⟨"c", "C", false⟩,
           ⟨"d", "D", false⟩], none, "e", none, none, none⟩
        ["a", "b"]).1 = true ↔
      (["a", "b"] : List String).toFinset =
        ((((⟨"q1", "case", "t",
            [⟨"a", "A", true⟩, ⟨"b", "B", true⟩, ⟨"c", "C", false⟩,
             ⟨"d", "D", false⟩], none, "e", none, none, none⟩ :
              Question).options.filter (fun o => o.correct)).map
          (fun o => o.id))).toFinset) :=
  ⟨⟨by decide, by decide, by decide⟩,
   gradeAnswer_iff_set_equality none
     ⟨"q1", "case", "t",
       [⟨"a", "A", true⟩, ⟨"b", "B", true⟩, ⟨"c", "C", false⟩,
        ⟨"d", "D", false⟩], none, "e", none, none, none⟩
     ["a", "b"] (by decide) (by decide) (by decide) (by decide)⟩

/-- `find?` after replacing every record carrying the looked-up id. -/
theorem find?_map_replace (id : String) (s s' : SessionRec)
    (hs' : s'.id = s.id) :
    ∀ store : List SessionRec,
      store.find? (fun t => t.id == id) = some s →
      (store.map (fun t => if t.id == id then s' else t)).find?
        (fun t => t.id == id) = some s'
  | [], h => by simp [List.find?] at h
  | t :: ts, h => by
    by_cases ht : (t.id == id) = true
    · rw [List.find?_cons_of_pos (p := fun (u : SessionRec) => u.id == id) _ ht] at h
      have hts : t = s := by injection h
      subst hts
      have hid : (s'.id == id) = true := by
        rw [show s'.id = t.id from hs']; exact ht
      rw [List.map_cons, if_pos ht]
      exact List.find?_cons_of_pos (p := fun (u : SessionRec) => u.id == id) _ hid
    · rw [List.find?_cons_of_neg (p := fun (u : SessionRec) => u.id == id) _ ht] at h
      rw [List.map_cons, if_neg ht,
        List.find?_cons_of_neg (p := fun (u : SessionRec) => u.id == id) _ ht]
      exact find?_map_replace id s s' hs' ts h

/-- C8: the background update after generation — an
`updateQuizSession` carrying only `summaryText` and `questions` — is a
read-modify-write over the most recently persisted session state: it
replaces exactly those two fields and preserves the persisted `stats`,
`currentQuestionIndex` and `completed` (including changes made by answer
submissions after session creation), and re-reading the store afterwards
returns that merged record. -/
theorem backgroundUpdate_preserves_answer_state
    (store : List SessionRec) (id : String) (s : SessionRec)
    (summaryText : String) (questions : List Question)
    (h : getQuizSessionRec store id = some s) :
    ∃ store',
      updateQuizSessionRec store id
          (backgroundUpdate summaryText questions) =
        some (applyUpdate s (backgroundUpdate summaryText questions),
          store') ∧
      (applyUpdate s (backgroundUpdate summaryText questions)).stats =
        s.stats ∧
      (applyUpdate s
        (backgroundUpdate summaryText questions)).currentQuestionIndex =
        s.currentQuestionIndex ∧
      (applyUpdate s (backgroundUpdate summaryText questions)).completed =
        s.completed ∧
      (applyUpdate s (backgroundUpdate summaryText questions)).summaryText =
        summaryText ∧
      (applyUpdate s (backgroundUpdate summaryText questions)).questions =
        questions ∧
      getQuizSessionRec store' id =
        some (applyUpdate s (backgroundUpdate summaryText questions)) := by
  refine ⟨store.map (fun t =>
    if t.id == id then
      applyUpdate s (backgroundUpdate summaryText questions)
    else t), ?_, rfl, rfl, rfl, rfl, rfl, ?_⟩
  · simp [updateQuizSessionRec, h]
  · have hfind := find?_map_replace id s
      (applyUpdate s (backgroundUpdate summaryText questions)) rfl store h
    simpa only [getQuizSessionRec] using hfind

/-- Witness for C8: a session whose persisted state was mutated by
answer submissions (`stats` counted, index advanced, completed set) keeps
all three fields across the background update. -/
theorem backgroundUpdate_preserves_answer_state_witness :
    getQuizSessionRec
        [⟨"s1", "Lädt neue Fragen...", [], 3, ⟨2, 1, 1, ["a"]⟩, true⟩]
        "s1" =
      some ⟨"s1", "Lädt neue Fragen...", [], 3, ⟨2, 1, 1, ["a"]⟩, true⟩ ∧
    ∃ store',
      updateQuizSessionRec
          [⟨"s1", "Lädt neue Fragen...", [], 3, ⟨2, 1, 1, ["a"]⟩, true⟩]
          "s1" (backgroundUpdate "real summary" []) =
        some (applyUpdate
          ⟨"s1", "Lädt neue Fragen...", [], 3, ⟨2, 1, 1, ["a"]⟩, true⟩
          (backgroundUpdate "real summary" []), store') ∧
      (applyUpdate
        ⟨"s1", "Lädt neue Fragen...", [], 3, ⟨2, 1, 1, ["a"]⟩, true⟩
        (backgroundUpdate "real summary" [])).stats =
        (⟨"s1", "Lädt neue Fragen...", [], 3, ⟨2, 1, 1, ["a"]⟩, true⟩ :
          SessionRec).stats ∧
      (applyUpdate
        ⟨"s1", "Lädt neue Fragen...", [], 3, ⟨2, 1, 1, ["a"]⟩, true⟩
        (backgroundUpdate "real summary" [])).currentQuestionIndex =
        (⟨"s1", "Lädt neue Fragen...", [], 3, ⟨2, 1, 1, ["a"]⟩, true⟩ :
          SessionRec).currentQuestionIndex ∧
      (applyUpdate
        ⟨"s1", "Lädt neue Fragen...", [], 3, ⟨2, 1, 1, ["a"]⟩, true⟩
        (backgroundUpdate "real summary" [])).completed =
        (⟨"s1", "Lädt neue Fragen...", [], 3, ⟨2, 1, 1, ["a"]⟩, true⟩ :
          SessionRec).completed ∧
      (applyUpdate
        ⟨"s1", "Lädt neue Fragen...", [], 3, ⟨2, 1, 1, ["a"]⟩, true⟩
        (backgroundUpdate "real summary" [])).summaryText =
        "real summary" ∧
      (applyUpdate
        ⟨"s1", "Lädt neue Fragen...", [], 3, ⟨2, 1, 1, ["a"]⟩, true⟩
        (backgroundUpdate "real summary" [])).questions = [] ∧
      getQuizSessionRec store' "s1" =
        some (applyUpdate
          ⟨"s1", "Lädt neue Fragen...", [], 3, ⟨2, 1, 1, ["a"]⟩, true⟩
          (backgroundUpdate "real summary" [])) :=
  ⟨by decide,
   backgroundUpdate_preserves_answer_state
     [⟨"s1", "Lädt neue Fragen...", [], 3, ⟨2, 1, 1, ["a"]⟩, true⟩]
     "s1" ⟨"s1", "Lädt neue Fragen...", [], 3, ⟨2, 1, 1, ["a"]⟩, true⟩
     "real summary" [] (by decide)⟩

/-- The empty character sequence occurs in every list. -/
theorem containsSeg_nil (l : List Char) : containsSeg [] l = true := by
  cases l <;> simp [containsSeg, List.isPrefixOf]

/-- The heuristic fallback grades the empty submitted string correct
against any model answer, because the empty string is a substring of
every correct answer (`correctAnswer.includes('')` is always true). -/
theorem openFallbackCorrect_empty (ca : String) :
    openFallbackCorrect "" ca = true := by
  have hdata : (jsTrim (jsToLower "")).data = [] := rfl
  have h : jsIncludes (jsTrim (jsToLower ca)) (jsTrim (jsToLower "")) =
      true := by
    simp [jsIncludes, hdata, containsSeg_nil]
  simp [openFallbackCorrect, h]

/-- C10: for an open question with a non-empty `correctAnswer`, when the
AI evaluator throws and the heuristic fallback runs, a submitted answer
array whose first element is the empty string (and whose length is
non-zero, so the skip branch is not taken) is always graded
`isCorrect = true`, and not skipped. -/
theorem gradeAnswer_open_fallback_empty_string (q : Question)
    (rest : List String) (ca : String)
    (hty : q.type = "open") (hca : q.correctAnswer = some ca)
    (hne : ca ≠ "") :
    gradeAnswer none q ("" :: rest) = (true, false) := by
  simp [gradeAnswer, hty, hca, openFallbackCorrect_empty]

/-- Witness for C10: an open question with model answer `"x"` grades the
submission `[""]` correct under the fallback. -/
theorem gradeAnswer_open_fallback_empty_string_witness :
    ((⟨"q1", "open", "t", [], some "x", "e", none, none, none⟩ :
        Question).type = "open" ∧
     (⟨"q1", "open", "t", [], some "x", "e", none, none, none⟩ :
        Question).correctAnswer = some "x" ∧
     ("x" : String) ≠ "") ∧
    gradeAnswer none
        ⟨"q1", "open", "t", [], some "x", "e", none, none, none⟩ [""] =
      (true, false) :=
  ⟨⟨rfl, rfl, by decide⟩,
   gradeAnswer_open_fallback_empty_string
     ⟨"q1", "open", "t", [], some "x", "e", none, none, none⟩ [] "x"
     rfl rfl (by decide)⟩

/-- A valid uploaded file content: 120 non-whitespace characters. -/
def validContent : String :=
  String.mk (List.replicate 120 'a')

/-- A generator oracle that succeeds with one `definition` question. -/
def demoGen : Nat → Nat → String → GenResult := fun _ _ _ =>
  { questions :=
      [⟨"g1", "definition", "T?", [⟨"a", "A", true⟩, ⟨"b", "B", false⟩],
        none, "E", none, none, none⟩],
    error := none }

/-- A valid upload request: one sufficiently long `.txt` file, no
explicit question types, no `totalQuestions` field, no difficulty. -/
def demoReq : UploadReq :=
  { files := [("a.txt", validContent)],
    questionTypesField := none,
    totalQuestionsField := none,
    difficultyField := none }

/-- C2: at a valid upload request the handler's call trace shows the
question-generation collaborator invoked inside the per-file loop
(trace position 1), strictly before the session creation (position 2)
and the HTTP 200 response (position 3); the background task scheduled
after the response performs only the session update (position 4) and
makes no generation call.  This contradicts the claim that generation is
invoked only inside the background task after the response. -/
theorem uploadHandler_generates_before_response :
    uploadHandler demoReq demoGen [] (fun l => l) =
      (.okSession 0 0 0 1,
       [.storeDoc 0, .genCall 0 30, .createSession, .respond 200,
        .updateSession 1]) := by
  decide

/-- C3: the CSV line written by `createQuizSession` for a fresh session
does not round-trip through `parseCSVLine`: the stats field comes back
with every double quote stripped (because `parseCSVLine` drops quote
characters instead of un-doubling `""`), which is no longer the JSON
text that was written — so the re-read stats are not byte-for-byte equal
to the written value (`JSON.parse` on the recovered field throws, and
`getQuizSession` returns `undefined`). -/
theorem sessionCSVLine_stats_do_not_round_trip :
    (parseCSVLine (sessionCSVLine "s1" "Lädt neue Fragen..." "[]" 0
        initialStatsJson false "2024-01-01T00:00:00.000Z"
        "2024-01-01T00:00:00.000Z"))[4]? =
      some initialStatsJsonStripped ∧
    initialStatsJsonStripped ≠ initialStatsJson := by
  decide

/-- The condition under which the handler's total-question validation
(routes.ts lines 80-89) rejects a present body field: the field is
truthy (non-empty) and its `parseInt` value is not one of
`{25, 50, 75, 100}` (a `NaN` parse is also rejected). -/
def totalFieldRejected (s : String) : Bool :=
  (!(s == "")) &&
  (match parseIntJS s with
   | none => true
   | some n => !(n == 25 || n == 50 || n == 75 || n == 100))

/-- The condition under which the per-file checks (routes.ts lines
111-121) reject a file: empty after trimming, or shorter than 100
characters. -/
def fileRejected (content : String) : Bool :=
  (jsTrim content == "") || decide (jsLength content < 100)

theorem parseQuestionTypes_error_shape {req : UploadReq}
    {e : UOutcome × List UEvent} (h : parseQuestionTypes req = .error e) :
    e = (.badRequest "Ungültige Fragentypen-Auswahl", [.respond 400]) := by
  cases hf : req.questionTypesField with
  | none => simp [parseQuestionTypes, hf] at h
  | some o =>
    cases o with
    | none =>
      simp only [parseQuestionTypes, hf, Except.error.injEq] at h
      exact h.symm
    | some l => simp [parseQuestionTypes, hf] at h

theorem parseTotalQuestions_rejected {req : UploadReq} {s : String}
    (hs : req.totalQuestionsField = some s)
    (hr : totalFieldRejected s = true) :
    parseTotalQuestions req =
      .error (.badRequest "Ungültige Gesamtanzahl Fragen!",
        [.respond 400]) := by
  have hne : ¬ (s = "") := by
    intro he
    subst he
    simp [totalFieldRejected] at hr
  simp only [parseTotalQuestions, hs, if_neg hne]
  cases hp : parseIntJS s with
  | none => simp only [hp]
  | some n =>
    have hn : ¬ (n = 25 ∨ n = 50 ∨ n = 75 ∨ n = 100) := by
      simp only [totalFieldRejected, hp, Bool.and_eq_true, Bool.not_eq_eq_eq_not,
        Bool.not_true, Bool.or_eq_false_iff, beq_eq_false_iff_ne] at hr
      tauto
    simp only [hp, if_neg hn]

theorem parseTotalQuestions_error_shape {req : UploadReq}
    {e : UOutcome × List UEvent} (h : parseTotalQuestions req = .error e) :
    e = (.badRequest "Ungültige Gesamtanzahl Fragen!", [.respond 400]) := by
  cases hf : req.totalQuestionsField with
  | none => simp [parseTotalQuestions, hf] at h
  | some s =>
    by_cases hse : s = ""
    · simp [parseTotalQuestions, hf, hse] at h
    · simp only [parseTotalQuestions, hf, if_neg hse] at h
      cases hp : parseIntJS s with
      | none =>
        simp only [hp, Except.error.injEq] at h
        exact h.symm
      | some n =>
        simp only [hp] at h
        by_cases hn : (n = 25 ∨ n = 50 ∨ n = 75 ∨ n = 100)
        · rw [if_pos hn] at h
          simp at h
        · rw [if_neg hn] at h
          injection h with h
          exact h.symm

theorem parseTotalQuestions_ok_valid {req : UploadReq} {t : Int}
    (h : parseTotalQuestions req = .ok t) :
    ∀ s, req.totalQuestionsField = some s →
      totalFieldRejected s = false := by
  intro s hs
  by_cases hse : s = ""
  · subst hse
    simp [totalFieldRejected]
  · simp only [parseTotalQuestions, hs, if_neg hse] at h
    cases hp : parseIntJS s with
    | none => simp only [hp] at h; simp at h
    | some n =>
      simp only [hp] at h
      by_cases hn : (n = 25 ∨ n = 50 ∨ n = 75 ∨ n = 100)
      · have hb : (n == 25 || n == 50 || n == 75 || n == 100) = true := by
          rcases hn with hn | hn | hn | hn <;> simp [hn]
        simp [totalFieldRejected, hp, hb]
      · rw [if_neg hn] at h
        simp at h

theorem processFiles_ok_all_pass (types : List String)
    (gen : Nat → Nat → String → GenResult) (qpf : Nat) (diff : String) :
    ∀ (files : List (String × String)) (idx : Nat) (st st' : LoopState),
      processFiles types gen qpf diff files idx st = .ok st' →
      ∀ f ∈ files, fileRejected f.2 = false := by
  intro files
  induction files with
  | nil =>
    intro idx st st' h f hf
    simp at hf
  | cons g rest ih =>
    obtain ⟨name, content⟩ := g
    intro idx st st' h f hf
    simp only [processFiles] at h
    by_cases h1 : jsTrim content = ""
    · rw [if_pos h1] at h
      simp at h
    · rw [if_neg h1] at h
      by_cases h2 : jsLength content < 100
      · rw [if_pos h2] at h
        simp at h
      · rw [if_neg h2] at h
        cases hg : (gen idx qpf diff).error with
        | some e =>
          rw [hg] at h
          simp at h
        | none =>
          rw [hg] at h
          simp only [] at h
          rcases List.mem_cons.mp hf with hfe | hfr
          · subst hfe
            simp [fileRejected, h1, h2]
          · exact ih (idx + 1) _ st' h f hfr

theorem processFiles_error_badRequest (types : List String)
    (gen : Nat → Nat → String → GenResult) (qpf : Nat) (diff : String)
    (hgen : ∀ i n d, (gen i n d).error = none) :
    ∀ (files : List (String × String)) (idx : Nat) (st : LoopState)
      (e : UOutcome × List UEvent),
      processFiles types gen qpf diff files idx st = .error e →
      ∃ m ev, e = (.badRequest m, ev) := by
  intro files
  induction files with
  | nil =>
    intro idx st e h
    simp [processFiles] at h
  | cons g rest ih =>
    obtain ⟨name, content⟩ := g
    intro idx st e h
    simp only [processFiles] at h
    by_cases h1 : jsTrim content = ""
    · rw [if_pos h1] at h
      simp only [Except.error.injEq] at h
      exact ⟨_, _, h.symm⟩
    · rw [if_neg h1] at h
      by_cases h2 : jsLength content < 100
      · rw [if_pos h2] at h
        simp only [Except.error.injEq] at h
        exact ⟨_, _, h.symm⟩
      · rw [if_neg h2] at h
        rw [hgen idx qpf diff] at h
        simp only [] at h
        exact ih (idx + 1) _ e h

theorem processFiles_error_not_ok (types : List String)
    (gen : Nat → Nat → String → GenResult) (qpf : Nat) (diff : String) :
    ∀ (files : List (String × String)) (idx : Nat) (st : LoopState)
      (e : UOutcome × List UEvent),
      processFiles types gen qpf diff files idx st = .error e →
      ∀ a b c d, e.1 ≠ .okSession a b c d := by
  intro files
  induction files with
  | nil =>
    intro idx st e h
    simp [processFiles] at h
  | cons g rest ih =>
    obtain ⟨name, content⟩ := g
    intro idx st e h
    simp only [processFiles] at h
    by_cases h1 : jsTrim content = ""
    · rw [if_pos h1] at h
      simp only [Except.error.injEq] at h
      subst h
      intro a b c d hc
      simp at hc
    · rw [if_neg h1] at h
      by_cases h2 : jsLength content < 100
      · rw [if_pos h2] at h
        simp only [Except.error.injEq] at h
        subst h
        intro a b c d hc
        simp at hc
      · rw [if_neg h2] at h
        cases hg : (gen idx qpf diff).error with
        | some e' =>
          rw [hg] at h
          simp only [Except.error.injEq] at h
          subst h
          intro a b c d hc
          simp at hc
        | none =>
          rw [hg] at h
          simp only [] at h
          exact ih (idx + 1) _ e h

/-- C7 counterexample: a request with the `totalQuestions` parameter
absent — which the claim says must be answered with 400, since the count
is then not one of `{25, 50, 75, 100}` — is in fact accepted: the
handler defaults the count to 30 and returns the success response with a
session. -/
theorem uploadHandler_absent_total_counterexample :
    demoReq.totalQuestionsField = none ∧
    (uploadHandler demoReq demoGen [] (fun l => l)).1 =
      .okSession 0 0 0 1 := by
  decide

/-- C7 (amended): the upload endpoint responds 400 whenever the
total-question field is present, non-empty and does not parse to one of
`{25, 50, 75, 100}` (when the field is absent or empty the count
defaults to 30 and is accepted); 400 whenever the question-type list is
unparsable or empty; 400 whenever an uploaded file is empty or shorter
than 100 characters, provided no generation call fails (an earlier
generation failure yields 500 instead); and a success response with a
session is returned only when the file list is non-empty, the type
field is parsable and non-empty, the total-question field is absent,
empty or valid, and every uploaded file is non-empty and at least 100
characters long. -/
theorem uploadHandler_validation (req : UploadReq)
    (gen : Nat → Nat → String → GenResult) (reviews : List Question)
    (shuffle : List Question → List Question) :
    (∀ s, req.totalQuestionsField = some s → totalFieldRejected s = true →
      ∃ m, (uploadHandler req gen reviews shuffle).1 = .badRequest m) ∧
    (req.questionTypesField = some none →
      ∃ m, (uploadHandler req gen reviews shuffle).1 = .badRequest m) ∧
    (req.questionTypesField = some (some []) →
      ∃ m, (uploadHandler req gen reviews shuffle).1 = .badRequest m) ∧
    ((∀ i n d, (gen i n d).error = none) →
     (∃ f ∈ req.files, fileRejected f.2 = true) →
      ∃ m, (uploadHandler req gen reviews shuffle).1 = .badRequest m) ∧
    (∀ a b c d, (uploadHandler req gen reviews shuffle).1 =
        .okSession a b c d →
      req.files ≠ [] ∧
      req.questionTypesField ≠ some none ∧
      req.questionTypesField ≠ some (some []) ∧
      (∀ s, req.totalQuestionsField = some s →
        totalFieldRejected s = false) ∧
      (∀ f ∈ req.files, fileRejected f.2 = false)) := by
  refine ⟨?_, ?_, ?_, ?_, ?_⟩
  · -- present and invalid totalQuestions field
    intro s hs hr
    by_cases hf : req.files.isEmpty
    · exact ⟨"Keine Dateien hochgeladen", by simp [uploadHandler, hf]⟩
    · cases hq : parseQuestionTypes req with
      | error e =>
        have he := parseQuestionTypes_error_shape hq
        exact ⟨"Ungültige Fragentypen-Auswahl", by simp [uploadHandler, hf, hq, he]⟩
      | ok types =>
        by_cases ht : types.isEmpty
        · exact ⟨"Mindestens ein Fragentyp muss ausgewählt werden", by simp [uploadHandler, hf, hq, ht]⟩
        · have htq := parseTotalQuestions_rejected hs hr
          exact ⟨"Ungültige Gesamtanzahl Fragen!", by simp [uploadHandler, hf, hq, ht, htq]⟩
  · -- unparsable question-type field
    intro hqf
    by_cases hf : req.files.isEmpty
    · exact ⟨"Keine Dateien hochgeladen", by simp [uploadHandler, hf]⟩
    · have hq : parseQuestionTypes req =
          .error (.badRequest "Ungültige Fragentypen-Auswahl",
            [.respond 400]) := by
        simp [parseQuestionTypes, hqf]
      exact ⟨"Ungültige Fragentypen-Auswahl", by simp [uploadHandler, hf, hq]⟩
  · -- empty question-type list
    intro hqf
    by_cases hf : req.files.isEmpty
    · exact ⟨"Keine Dateien hochgeladen", by simp [uploadHandler, hf]⟩
    · have hq : parseQuestionTypes req = .ok [] := by
        simp [parseQuestionTypes, hqf]
      exact ⟨"Mindestens ein Fragentyp muss ausgewählt werden", by simp [uploadHandler, hf, hq]⟩
  · -- empty or too-short file, generation never failing
    intro hgen hbad
    by_cases hf : req.files.isEmpty
    · exact ⟨"Keine Dateien hochgeladen", by simp [uploadHandler, hf]⟩
    · cases hq : parseQuestionTypes req with
      | error e =>
        have he := parseQuestionTypes_error_shape hq
        exact ⟨"Ungültige Fragentypen-Auswahl", by simp [uploadHandler, hf, hq, he]⟩
      | ok types =>
        by_cases ht : types.isEmpty
        · exact ⟨"Mindestens ein Fragentyp muss ausgewählt werden", by simp [uploadHandler, hf, hq, ht]⟩
        · cases htq : parseTotalQuestions req with
          | error e =>
            have he := parseTotalQuestions_error_shape htq
            exact ⟨"Ungültige Gesamtanzahl Fragen!", by simp [uploadHandler, hf, hq, ht, htq, he]⟩
          | ok t =>
            cases hpf : processFiles types gen
                ((t.toNat + req.files.length - 1) / req.files.length)
                (parseDifficulty req) req.files 0 ⟨[], "", [], 1⟩ with
            | error e =>
              obtain ⟨m, ev, he⟩ := processFiles_error_badRequest types gen
                ((t.toNat + req.files.length - 1) / req.files.length)
                (parseDifficulty req) hgen req.files 0 ⟨[], "", [], 1⟩ e hpf
              exact ⟨m, by simp [uploadHandler, hf, hq, ht, htq, hpf, he]⟩
            | ok st =>
              exfalso
              have hpass := processFiles_ok_all_pass types gen
                ((t.toNat + req.files.length - 1) / req.files.length)
                (parseDifficulty req) req.files 0 ⟨[], "", [], 1⟩ st hpf
              obtain ⟨f, hfm, hfr⟩ := hbad
              rw [hpass f hfm] at hfr
              exact Bool.false_ne_true hfr
  · -- success implies every validation passed
    intro a b c d h
    by_cases hf : req.files.isEmpty
    · exfalso
      simp [uploadHandler, hf] at h
    · cases hq : parseQuestionTypes req with
      | error e =>
        exfalso
        have he := parseQuestionTypes_error_shape hq
        simp [uploadHandler, hf, hq, he] at h
      | ok types =>
        by_cases ht : types.isEmpty
        · exfalso
          simp [uploadHandler, hf, hq, ht] at h
        · cases htq : parseTotalQuestions req with
          | error e =>
            exfalso
            have he := parseTotalQuestions_error_shape htq
            simp [uploadHandler, hf, hq, ht, htq, he] at h
          | ok t =>
            cases hpf : processFiles types gen
                ((t.toNat + req.files.length - 1) / req.files.length)
                (parseDifficulty req) req.files 0 ⟨[], "", [], 1⟩ with
            | error e =>
              exfalso
              have hno := processFiles_error_not_ok types gen
                ((t.toNat + req.files.length - 1) / req.files.length)
                (parseDifficulty req) req.files 0 ⟨[], "", [], 1⟩ e hpf
              simp only [uploadHandler, hf, hq, ht, htq, hpf] at h
              exact hno a b c d h
            | ok st =>
              refine ⟨fun he => hf (by simp [he]), ?_, ?_,
                parseTotalQuestions_ok_valid htq,
                processFiles_ok_all_pass types gen
                  ((t.toNat + req.files.length - 1) / req.files.length)
                  (parseDifficulty req) req.files 0 ⟨[], "", [], 1⟩ st hpf⟩
              · intro hqf
                rw [parseQuestionTypes, hqf] at hq
                simp at hq
              · intro hqf
                rw [parseQuestionTypes, hqf] at hq
                injection hq with hq
                rw [← hq] at ht
                simp at ht

/-- Witness for C7 (amended): a request carrying `totalQuestions = "30"`
— present but not one of the allowed values — is rejected with 400. -/
theorem uploadHandler_validation_witness :
    ((⟨[("a.txt", validContent)], none, some "30", none⟩ :
        UploadReq).totalQuestionsField = some "30" ∧
     totalFieldRejected "30" = true) ∧
    ∃ m, (uploadHandler ⟨[("a.txt", validContent)], none, some "30", none⟩
        demoGen [] (fun l => l)).1 = .badRequest m :=
  ⟨⟨rfl, by decide⟩,
   (uploadHandler_validation
      ⟨[("a.txt", validContent)], none, some "30", none⟩
      demoGen [] (fun l => l)).1 "30" rfl (by decide)⟩

end QuizApp
